import Mathlib

/-!
Verification of the skin-tone analysis/transformation core
(`app/services/image_processor.py`, `app/services/color_advisor.py`).

Conventions of the shallow embedding:
* A pixel is a triple of channel samples, `Nat × Nat × Nat`, each in `[0,255]`
  in any well-formed 8-bit image.  An image is a row-major list of rows of
  pixels (`List (List Px)`); a BGR image stores channels in OpenCV's
  `(b, g, r)` order and an HSV image stores `(h, s, v)`.
* `cv2.imread` returning `None` for an unreadable file is modelled by taking
  the decoded image as an `Option ImageT` argument alongside the path string.
* Python exceptions are modelled by the `PyErr` type; a function that can
  raise returns `Except PyErr _`, and a `try/except` that catches everything
  is modelled by totalising the function.
* `float64` arithmetic on the bounded 8-bit quantities appearing here is
  modelled exactly with integer arithmetic: every product `channel * factor`
  with the factors of the adjustment table is a rational with denominator 10,
  and every channel mean is a rational `sum / count` with `sum < 2^48`,
  `count ≤ 2^32`; in both cases the `float64` result is within `2^-45` of the
  exact rational while the exact rational, when it is not an integer, is at
  least `2^-32` away from every integer, so truncation (`astype`) of the
  float agrees with truncation of the exact rational.
-/

/-- A pixel: three 8-bit channel samples. -/
abbrev Px : Type := Nat × Nat × Nat

/-- An image: row-major grid of pixels. -/
abbrev ImageT : Type := List (List Px)

/-- A Python exception, as re-raised or caught by the services. -/
inductive PyErr where
  | valueError (msg : String)
  | indexError (msg : String)
  | attributeError (msg : String)
deriving DecidableEq

/-- Round-to-nearest of the nonnegative rational `a / b` (ties up), `b ≠ 0`. -/
def roundN (a b : Nat) : Nat := (2 * a + b) / (2 * b)

/-- Round-to-nearest of the rational `a / b` for an integer `a` and positive
integer `b` (ties toward `+∞`). -/
def roundZ (a : Int) (b : Int) : Int := (2 * a + b).fdiv (2 * b)

/-- 8-bit RGB → HSV conversion as performed by `cv2.COLOR_RGB2HSV`
(OpenCV's documented formulas: `V = max`, `S = round(255·(V−min)/V)`,
hue in half-degrees `[0,180)` with `H += 180` when negative). -/
def rgb2hsvPixel (p : Px) : Px :=
  let r := p.1
  let g := p.2.1
  let b := p.2.2
  let v := max r (max g b)
  let mn := min r (min g b)
  let diff := v - mn
  let s := if v = 0 then 0 else roundN (255 * diff) v
  let h : Int :=
    if diff = 0 then 0
    else if v = r then roundZ (30 * ((g : Int) - (b : Int))) (diff : Int)
    else if v = g then 60 + roundZ (30 * ((b : Int) - (r : Int))) (diff : Int)
    else 120 + roundZ (30 * ((r : Int) - (g : Int))) (diff : Int)
  let h := if h < 0 then h + 180 else h
  (h.toNat, s, v)

/-- 8-bit BGR → HSV conversion (`cv2.COLOR_BGR2HSV`): the same mapping read
off a `(b, g, r)`-ordered pixel. -/
def bgr2hsvPixel (p : Px) : Px := rgb2hsvPixel (p.2.2, p.2.1, p.1)

/-- 8-bit BGR → RGB conversion (`cv2.COLOR_BGR2RGB`): channel reversal. -/
def bgr2rgbPixel (p : Px) : Px := (p.2.2, p.2.1, p.1)

/-- 8-bit HSV → BGR conversion as performed by `cv2.COLOR_HSV2BGR`
(standard sector formula on hue half-degrees, rounded to nearest). -/
def hsv2bgrPixel (p : Px) : Px :=
  let h := p.1
  let s := p.2.1
  let v := p.2.2
  let sector := h / 30
  let rem := h % 30
  let pc := roundN (v * (255 - s)) 255
  let qc := roundN (v * (255 * 30 - s * rem)) (255 * 30)
  let tc := roundN (v * (255 * 30 - s * (30 - rem))) (255 * 30)
  match sector with
  | 0 => (pc, tc, v)
  | 1 => (pc, v, qc)
  | 2 => (tc, v, pc)
  | 3 => (v, qc, pc)
  | 4 => (v, pc, tc)
  | _ => (qc, pc, v)

/-- `lower_skin` constant of `detect_skin_tone` (line 75). -/
def lower_skin_detect : Px := (0, 20, 70)

/-- `upper_skin` constant of `detect_skin_tone` (line 76). -/
def upper_skin_detect : Px := (20, 255, 255)

/-- `lower_skin` constant of `modify_skin_tone` (line 158). -/
def lower_skin_modify : Px := (0, 20, 70)

/-- `upper_skin` constant of `modify_skin_tone` (line 159). -/
def upper_skin_modify : Px := (20, 255, 255)

/-- `cv2.inRange` on one pixel: inclusive bounds on every channel. -/
def inRange (lo hi p : Px) : Bool :=
  decide (lo.1 ≤ p.1) && decide (p.1 ≤ hi.1) &&
  decide (lo.2.1 ≤ p.2.1) && decide (p.2.1 ≤ hi.2.1) &&
  decide (lo.2.2 ≤ p.2.2) && decide (p.2.2 ≤ hi.2.2)

/-- The skin mask as computed inside `detect_skin_tone`: convert the BGR image
to HSV, then `cv2.inRange` with the detect-side bounds. -/
def skin_mask_detect (img : ImageT) : List (List Bool) :=
  img.map (fun row => row.map (fun p => inRange lower_skin_detect upper_skin_detect (bgr2hsvPixel p)))

/-- The skin mask as computed inside `modify_skin_tone`: convert the BGR image
to HSV, then `cv2.inRange` with the modify-side bounds. -/
def skin_mask_modify (img : ImageT) : List (List Bool) :=
  img.map (fun row => row.map (fun p => inRange lower_skin_modify upper_skin_modify (bgr2hsvPixel p)))

/-- Result dictionary of `detect_skin_tone`.  The success dictionary carries
no `message` key, modelled as `message = none`. -/
structure DetectResult where
  success : Bool
  message : Option String
  skin_tone : Option String
  rgb : Option Px
  hsv : Option Px
deriving DecidableEq

/-- The dictionary built by `detect_skin_tone`'s `except` block:
`success = False`, message `"Error processing image: " ++ str(e)`, and
`None` for the three result fields. -/
def detectError (msg : String) : DetectResult :=
  ⟨false, some ("Error processing image: " ++ msg), none, none, none⟩

/-- Lines 82–85 of `detect_skin_tone`: `cv2.bitwise_and(image_rgb, image_rgb,
mask=skin_mask)` zeroes every pixel outside the mask, and
`skin_pixels[np.where((skin_pixels != [0, 0, 0]).all(axis=2))]` then keeps, in
row-major order, exactly the pixels with ALL THREE channels nonzero (the
broadcast `!=` compares per channel and `.all(axis=2)` conjoins them). -/
def collectSkinPixels (img : ImageT) : List Px :=
  let image_rgb := img.map (fun row => row.map bgr2rgbPixel)
  let skin_mask := skin_mask_detect img
  let skin_pixels := (image_rgb.zip skin_mask).map (fun pr =>
    (pr.1.zip pr.2).map (fun pm => if pm.2 then pm.1 else ((0, 0, 0) : Px)))
  skin_pixels.flatten.filter (fun p => p.1 != 0 && p.2.1 != 0 && p.2.2 != 0)

/-- `np.mean(non_zero_pixels, axis=0).astype(int)`: per-channel mean,
truncated to integer.  The `float64` mean truncates exactly like natural
division here (see the file header). -/
def npMean (l : List Px) : Px :=
  let n := l.length
  ((l.map (fun p => p.1)).sum / n,
   (l.map (fun p => p.2.1)).sum / n,
   (l.map (fun p => p.2.2)).sum / n)

/-- Lines 108–117 of `detect_skin_tone`: the ordered brightness
classification of the averaged value channel. -/
def classify_skin_tone (v : Nat) : String :=
  if v < 100 then "Deep"
  else if v < 140 then "Dark"
  else if v < 170 then "Medium"
  else if v < 200 then "Light"
  else "Fair"

set_option linter.unusedVariables false in
/-- `ImageProcessor.detect_skin_tone`.  `image = none` models `cv2.imread`
returning `None` (unreadable file), which raises `ValueError` inside the
`try`, caught by the `except` block.  On a readable image with a non-empty
collected pixel subset, the success return statement evaluates
`avg_color_rgb.tolist()` where `avg_color_rgb = tuple(avg_color)` is a Python
`tuple`, which has no `tolist` attribute: the raised `AttributeError` is
caught by the same `except` block, so the computed tone is discarded. -/
def detect_skin_tone (image_path : String) (image : Option ImageT) : DetectResult :=
  match image with
  | none => detectError ("Could not read image at " ++ image_path)
  | some img =>
    let non_zero_pixels := collectSkinPixels img
    if non_zero_pixels.isEmpty then
      ⟨false, some "No skin detected in the image", none, none, none⟩
    else
      let avg_color_rgb := npMean non_zero_pixels
      let avg_color_hsv := rgb2hsvPixel avg_color_rgb
      let skin_tone := classify_skin_tone avg_color_hsv.2.2
      -- The success dictionary would be
      -- `⟨true, none, some skin_tone, some avg_color_rgb, some avg_color_hsv⟩`,
      -- but building it evaluates `avg_color_rgb.tolist()` first, which raises;
      -- `skin_tone` is dead at this point.
      detectError "'tuple' object has no attribute 'tolist'"

/-- Association-list lookup with Python `dict` key semantics. -/
def dictLookup {α : Type} : List (String × α) → String → Option α
  | [], _ => none
  | (k, v) :: t, s => if s = k then some v else dictLookup t s

/-- Lines 166–172: the `tone_adjustments` table.  The literal `float`
factors are represented exactly as numerator/denominator pairs over 10:
each entry is `(v_factor, s_factor)`. -/
def tone_adjustments : List (String × ((Nat × Nat) × (Nat × Nat))) :=
  [("Fair", ((13, 10), (7, 10))),
   ("Light", ((12, 10), (8, 10))),
   ("Medium", ((10, 10), (10, 10))),
   ("Dark", ((8, 10), (12, 10))),
   ("Deep", ((6, 10), (13, 10)))]

/-- `np.clip(ch * factor, 0, 255).astype(np.uint8)` on one channel with
factor `f.1 / f.2`: multiply, clamp into `[0,255]`, truncate.  On the exact
nonnegative rational this is `min (ch * f.1 / f.2) 255` (see file header for
why `float64` truncation agrees). -/
def scaleClip (f : Nat × Nat) (ch : Nat) : Nat := min (ch * f.1 / f.2) 255

/-- The clip-scale-truncate map applied to every channel of a pixel (the
buggy fancy indexing reads whole `(b, g, r)`/`(h, s, v)` triples). -/
def scalePx (f : Nat × Nat) (p : Px) : Px :=
  (scaleClip f p.1, scaleClip f p.2.1, scaleClip f p.2.2)

/-- `np.where(skin_mask == 255)`: the row-major `(rows, cols)` coordinate
lists of the true mask entries. -/
def maskCoords (mask : List (List Bool)) : List (Nat × Nat) :=
  (mask.enum.map (fun ir =>
    ir.2.enum.filterMap (fun jb => if jb.2 then some (ir.1, jb.1) else none))).flatten

/-- The effect of `modified_hsv[(rows, cols), col] = np.clip(... * factor,
0, 255).astype(np.uint8)`: numpy converts the nested tuple `(rows, cols)` to
a `(2, N)` integer index array on axis 0 and takes the scalar `col` on
axis 1, so of every row whose index occurs in `rows ++ cols` the single
pixel in image column `col` has all three of its channels scaled. -/
def npColAssign (idxs : List Nat) (col : Nat) (f : Nat × Nat) (img : ImageT) : ImageT :=
  img.enum.map (fun ir =>
    if idxs.contains ir.1 then
      ir.2.enum.map (fun jp => if jp.1 = col then scalePx f jp.2 else jp.2)
    else ir.2)

/-- `ImageProcessor.modify_skin_tone`, up to the in-memory `modified_image`
(filename generation and `cv2.imwrite` are I/O outside the core contract).
`image = none` models an unreadable file.  The numpy statements
`modified_hsv[skin_pixels, c] = ...` (lines 188–193) index axis 0 with the
stacked `(2, N)` array of mask rows-and-columns and axis 1 with the scalar
`c`; the scalar is bounds-checked against the image width and every stacked
value against the image height, raising `IndexError` (re-raised by the
`except` block) when out of bounds. -/
def modify_skin_tone (image_path : String) (image : Option ImageT)
    (target_tone : String) : Except PyErr ImageT :=
  match image with
  | none => .error (.valueError ("Could not read image at " ++ image_path))
  | some img =>
    match dictLookup tone_adjustments target_tone with
    | none => .error (.valueError ("Invalid target tone: " ++ target_tone))
    | some factors =>
      let v_factor := factors.1
      let s_factor := factors.2
      let image_hsv := img.map (fun row => row.map bgr2hsvPixel)
      let skin_mask := skin_mask_modify img
      let coords := maskCoords skin_mask
      let idxs := coords.map (fun c => c.1) ++ coords.map (fun c => c.2)
      let H := img.length
      let W := (img.headD []).length
      if idxs.any (fun i => H ≤ i) then
        .error (.indexError "index is out of bounds for axis 0")
      else if W ≤ 1 then
        .error (.indexError "index 1 is out of bounds for axis 1")
      else if W ≤ 2 then
        .error (.indexError "index 2 is out of bounds for axis 1")
      else
        let step1 := npColAssign idxs 1 s_factor image_hsv
        let step2 := npColAssign idxs 2 v_factor step1
        .ok (step2.map (fun row => row.map hsv2bgrPixel))

/-- A named palette: name plus ordered hex color codes. -/
abbrev PaletteEntry : Type := String × List String

/-- One band's data: recommended palettes plus colors to avoid. -/
abbrev ToneData : Type := List PaletteEntry × List String

/-- `ColorAdvisor.SKIN_TONE_PALETTES`: the static recommendation table. -/
def SKIN_TONE_PALETTES : List (String × ToneData) :=
  [("Fair",
    ([("Soft pastels", ["#E6B3B3", "#B3E6CC", "#B3CCE6", "#E6CCB3"]),
      ("Cool blues", ["#6699CC", "#336699", "#003366", "#99CCFF"]),
      ("Soft pinks", ["#FFB6C1", "#FF69B4", "#FFC0CB", "#DB7093"]),
      ("Emerald greens", ["#2E8B57", "#3CB371", "#00FF7F", "#66CDAA"])],
     ["#FFA500", "#FF8C00", "#FF7F50", "#FF4500"])),
   ("Light",
    ([("Jewel tones", ["#9932CC", "#8A2BE2", "#4B0082", "#800080"]),
      ("Soft neutrals", ["#D2B48C", "#DEB887", "#F5DEB3", "#FFDEAD"]),
      ("Dusty pinks", ["#DBB2D1", "#C9A9C9", "#DDA0DD", "#D8BFD8"]),
      ("Olive greens", ["#808000", "#6B8E23", "#556B2F", "#BDB76B"])],
     ["#FFFF00", "#FFFFE0", "#FFFACD", "#FAFAD2"])),
   ("Medium",
    ([("Earth tones", ["#CD853F", "#D2691E", "#8B4513", "#A0522D"]),
      ("Coral shades", ["#FF7F50", "#FF6347", "#FA8072", "#E9967A"]),
      ("Teals", ["#008080", "#20B2AA", "#5F9EA0", "#00CED1"]),
      ("Rich purples", ["#800080", "#8B008B", "#9400D3", "#9932CC"])],
     ["#F0E68C", "#EEE8AA", "#FAFAD2", "#FFFFE0"])),
   ("Dark",
    ([("Bright colors", ["#FF0000", "#00FF00", "#0000FF", "#FFFF00"]),
      ("Orange shades", ["#FFA500", "#FF8C00", "#FF7F50", "#FF4500"]),
      ("Warm reds", ["#FF0000", "#DC143C", "#B22222", "#8B0000"]),
      ("Gold tones", ["#FFD700", "#DAA520", "#B8860B", "#CD853F"])],
     ["#000080", "#00008B", "#191970", "#2F4F4F"])),
   ("Deep",
    ([("Vibrant colors", ["#FF1493", "#00FFFF", "#FF4500", "#7FFF00"]),
      ("Bright yellows", ["#FFFF00", "#FFD700", "#FFA500", "#FFFF54"]),
      ("Fuchsia pinks", ["#FF00FF", "#FF69B4", "#FF1493", "#C71585"]),
      ("Bright blues", ["#1E90FF", "#00BFFF", "#87CEEB", "#00FFFF"])],
     ["#A9A9A9", "#696969", "#808080", "#778899"]))]

/-- Result dictionary of `get_color_recommendations`. -/
structure Recommendation where
  skin_tone : String
  palettes : List PaletteEntry
  avoid : List String
deriving DecidableEq

/-- `ColorAdvisor.get_color_recommendations`.  Dictionary membership is
lookup success; an unknown band is remapped to `"Medium"` (after a
warning-level log, which has no effect on the result) before the lookup.
The `except` branch returning empty lists is kept although the remapped key
is always present. -/
def get_color_recommendations (skin_tone : String) : Recommendation :=
  let tone := if (dictLookup SKIN_TONE_PALETTES skin_tone).isSome then skin_tone
              else "Medium"
  match dictLookup SKIN_TONE_PALETTES tone with
  | some d => ⟨tone, d.1, d.2⟩
  | none => ⟨tone, [], []⟩

instance {ε α : Type} [DecidableEq ε] [DecidableEq α] : DecidableEq (Except ε α) :=
  fun a b =>
    match a, b with
    | .ok x, .ok y =>
        if h : x = y then isTrue (by rw [h]) else isFalse (by simp [h])
    | .error e, .error f =>
        if h : e = f then isTrue (by rw [h]) else isFalse (by simp [h])
    | .ok _, .error _ => isFalse (by simp)
    | .error _, .ok _ => isFalse (by simp)

/-- Claim C1: refuted by evaluation — on the valid 1×3 BGR image below with
target tone `"Fair"`, the lone masked pixel `(0,0)` (HSV `(0,102,200)`)
comes out byte-identical instead of having its saturation set to
`trunc(clamp(102 · 0.7)) = 71`: the numpy fancy indexing scales all three
channels of the pixels in image columns 1 and 2 instead. -/
theorem c1_applyTone_skips_masked_pixel :
    modify_skin_tone "img.jpg"
        (some [[(120, 120, 200), (50, 50, 50), (50, 50, 50)]]) "Fair"
      = .ok [[(120, 120, 200), (35, 35, 35), (65, 65, 65)]] ∧
    skin_mask_modify [[(120, 120, 200), (50, 50, 50), (50, 50, 50)]]
      = [[true, false, false]] ∧
    (bgr2hsvPixel (120, 120, 200)).2.1 = 102 ∧
    scaleClip (7, 10) 102 = 71 := by decide

/-- Claim C2: refuted by evaluation — on the valid 1×3 BGR image below with
target tone `"Fair"`, the unmasked pixels `(0,1)` and `(0,2)` are rewritten
from `(50,50,50)` and `(40,40,40)` to `(35,35,35)` and `(52,52,52)` by the
fancy-indexing slip, so pixels outside the mask are not byte-identical. -/
theorem c2_applyTone_mutates_unmasked_pixels :
    modify_skin_tone "img.jpg"
        (some [[(120, 120, 200), (50, 50, 50), (40, 40, 40)]]) "Fair"
      = .ok [[(120, 120, 200), (35, 35, 35), (52, 52, 52)]] ∧
    skin_mask_modify [[(120, 120, 200), (50, 50, 50), (40, 40, 40)]]
      = [[true, false, false]] ∧
    ((35, 35, 35) : Px) ≠ (50, 50, 50) := by decide

/-- Claim C3: refuted by evaluation — on the valid 1×2 BGR image below both
pixels are masked (RGB `(100,50,0)` and `(255,51,51)`), so the claimed
per-channel mean is `(177,50,25)`; but the code's all-channels-nonzero
filter drops `(100,50,0)` and the success return then raises
`AttributeError` (`tuple.tolist`), so no RGB triple is reported at all. -/
theorem c3_analyzeTone_drops_pixels_and_crashes :
    detect_skin_tone "img.jpg" (some [[(0, 50, 100), (51, 51, 255)]])
      = ⟨false,
         some "Error processing image: 'tuple' object has no attribute 'tolist'",
         none, none, none⟩ ∧
    skin_mask_detect [[(0, 50, 100), (51, 51, 255)]] = [[true, true]] ∧
    collectSkinPixels [[(0, 50, 100), (51, 51, 255)]] = [(255, 51, 51)] ∧
    npMean [bgr2rgbPixel (0, 50, 100), bgr2rgbPixel (51, 51, 255)]
      = (177, 50, 25) := by decide

/-- Claim C4: the skin bounds are the same constants in the analyzer and the
transformer, a pixel passes `cv2.inRange` with them exactly when its HSV
channels satisfy hue ∈ [0,20], saturation ∈ [20,255], value ∈ [70,255]
(all inclusive), and the two mask computations agree on every image. -/
theorem c4_skin_mask_bounds :
    (lower_skin_detect = lower_skin_modify ∧
     upper_skin_detect = upper_skin_modify) ∧
    (∀ h s v : Nat,
      inRange lower_skin_detect upper_skin_detect (h, s, v) = true ↔
        (h ≤ 20 ∧ 20 ≤ s ∧ s ≤ 255 ∧ 70 ≤ v ∧ v ≤ 255)) ∧
    (∀ img : ImageT, skin_mask_detect img = skin_mask_modify img) := by
  refine ⟨⟨rfl, rfl⟩, ?_, fun img => rfl⟩
  intro h s v
  simp [inRange, lower_skin_detect, upper_skin_detect]
  omega

/-- Claim C5: the ordered brightness thresholds classify every value in
[0,255] into exactly one band: each band label is produced exactly on its
stated interval, and the five intervals partition [0,255]. -/
theorem c5_threshold_partition (v : Nat) (hv : v ≤ 255) :
    (classify_skin_tone v = "Deep" ↔ v < 100) ∧
    (classify_skin_tone v = "Dark" ↔ 100 ≤ v ∧ v < 140) ∧
    (classify_skin_tone v = "Medium" ↔ 140 ≤ v ∧ v < 170) ∧
    (classify_skin_tone v = "Light" ↔ 170 ≤ v ∧ v < 200) ∧
    (classify_skin_tone v = "Fair" ↔ 200 ≤ v) := by
  unfold classify_skin_tone
  split_ifs <;> refine ⟨?_, ?_, ?_, ?_, ?_⟩ <;> simp <;> omega

/-- Witness for C5 at `v = 150`: the partition instantiated at a concrete
value, classifying it as `"Medium"`. -/
theorem c5_threshold_partition_witness :
    (classify_skin_tone 150 = "Deep" ↔ 150 < 100) ∧
    (classify_skin_tone 150 = "Dark" ↔ 100 ≤ 150 ∧ 150 < 140) ∧
    (classify_skin_tone 150 = "Medium" ↔ 140 ≤ 150 ∧ 150 < 170) ∧
    (classify_skin_tone 150 = "Light" ↔ 170 ≤ 150 ∧ 150 < 200) ∧
    (classify_skin_tone 150 = "Fair" ↔ 200 ≤ 150) :=
  c5_threshold_partition 150 (by decide)

/-- Claim C6: whenever the collected skin-pixel subset is empty,
`detect_skin_tone` returns the no-skin dictionary: `success = false`,
message `"No skin detected in the image"`, and no partial
tone/rgb/hsv results. -/
theorem c6_empty_subset_no_skin (image_path : String) (img : ImageT)
    (h : collectSkinPixels img = []) :
    detect_skin_tone image_path (some img)
      = ⟨false, some "No skin detected in the image", none, none, none⟩ := by
  simp [detect_skin_tone, h]

/-- Witness for C6 on a concrete all-black 2×2 image (every pixel BGR
`(0,0,0)`): its mask is all false, the collected subset is empty, and the
no-skin dictionary is returned. -/
theorem c6_empty_subset_no_skin_witness :
    detect_skin_tone "black.jpg"
        (some [[(0, 0, 0), (0, 0, 0)], [(0, 0, 0), (0, 0, 0)]])
      = ⟨false, some "No skin detected in the image", none, none, none⟩ :=
  c6_empty_subset_no_skin "black.jpg"
    [[(0, 0, 0), (0, 0, 0)], [(0, 0, 0), (0, 0, 0)]] (by decide)

/-- Claim C7: refuted by evaluation — on the valid 1×1 BGR image below (its
single pixel is masked) with target tone `"Medium"`, `modify_skin_tone`
raises `IndexError` (the fancy-indexing statement addresses image column 1,
which does not exist) instead of returning the image unchanged. -/
theorem c7_applyTone_medium_raises_on_1x1 :
    modify_skin_tone "img.jpg" (some [[(120, 120, 200)]]) "Medium"
      = .error (.indexError "index 1 is out of bounds for axis 1") ∧
    skin_mask_modify [[(120, 120, 200)]] = [[true]] := by decide

/-- Claim C8: on any readable image, a target tone outside the five bands
makes `modify_skin_tone` raise `ValueError("Invalid target tone: ...")`
(no fallback to any band). -/
theorem c8_invalid_tone_error (image_path : String) (img : ImageT)
    (target_tone : String)
    (h : target_tone ∉ ["Fair", "Light", "Medium", "Dark", "Deep"]) :
    modify_skin_tone image_path (some img) target_tone
      = .error (.valueError ("Invalid target tone: " ++ target_tone)) := by
  simp only [List.mem_cons, List.not_mem_nil, or_false, not_or] at h
  obtain ⟨h1, h2, h3, h4, h5⟩ := h
  have hl : dictLookup tone_adjustments target_tone = none := by
    simp [tone_adjustments, dictLookup, h1, h2, h3, h4, h5]
  simp [modify_skin_tone, hl]

/-- Witness for C8 at the concrete tone `"Unknown"` on a 1×1 image. -/
theorem c8_invalid_tone_error_witness :
    modify_skin_tone "img.jpg" (some [[(0, 0, 0)]]) "Unknown"
      = .error (.valueError ("Invalid target tone: " ++ "Unknown")) :=
  c8_invalid_tone_error "img.jpg" [[(0, 0, 0)]] "Unknown" (by decide)

/-- Claim C9: `get_color_recommendations` is total; on a band present in the
static table it returns exactly that band's recommended palettes and avoid
list (with the band echoed), and on any string outside the five bands it
returns the very same result as for `"Medium"`. -/
theorem c9_recommend_total_and_fallback :
    (∀ b d, dictLookup SKIN_TONE_PALETTES b = some d →
        get_color_recommendations b = ⟨b, d.1, d.2⟩) ∧
    (∀ s, s ∉ ["Fair", "Light", "Medium", "Dark", "Deep"] →
        get_color_recommendations s = get_color_recommendations "Medium") := by
  constructor
  · intro b d hd
    simp [get_color_recommendations, hd]
  · intro s hs
    simp only [List.mem_cons, List.not_mem_nil, or_false, not_or] at hs
    obtain ⟨h1, h2, h3, h4, h5⟩ := hs
    have hl : dictLookup SKIN_TONE_PALETTES s = none := by
      simp [SKIN_TONE_PALETTES, dictLookup, h1, h2, h3, h4, h5]
    simp [get_color_recommendations, hl]

/-- Witness for C9: `recommend("Unknown")` coincides with
`recommend("Medium")`, and `recommend("Fair")` returns the `"Fair"` entry of
the static table. -/
theorem c9_recommend_witness :
    get_color_recommendations "Unknown" = get_color_recommendations "Medium" ∧
    get_color_recommendations "Fair"
      = ⟨"Fair", ((dictLookup SKIN_TONE_PALETTES "Fair").getD ([], [])).1,
          ((dictLookup SKIN_TONE_PALETTES "Fair").getD ([], [])).2⟩ :=
  ⟨c9_recommend_total_and_fallback.2 "Unknown" (by decide),
   c9_recommend_total_and_fallback.1 "Fair"
     ((dictLookup SKIN_TONE_PALETTES "Fair").getD ([], [])) (by decide)⟩

/-- Claim C10: `detect_skin_tone` is total (it always returns a result
dictionary), and whenever its `success` field is false the three result
fields are all `None`; `modify_skin_tone`, in contrast, re-raises: on an
unreadable file it propagates the `ValueError` instead of returning a
result. -/
theorem c10_detect_total_modify_raises (image_path : String)
    (image : Option ImageT) :
    ((detect_skin_tone image_path image).success = false →
      (detect_skin_tone image_path image).skin_tone = none ∧
      (detect_skin_tone image_path image).rgb = none ∧
      (detect_skin_tone image_path image).hsv = none) ∧
    (∀ target_tone, modify_skin_tone image_path none target_tone
      = .error (.valueError ("Could not read image at " ++ image_path))) := by
  refine ⟨fun _ => ?_, fun target_tone => rfl⟩
  cases image with
  | none => exact ⟨rfl, rfl, rfl⟩
  | some img =>
    simp only [detect_skin_tone]
    split <;> simp [detectError]

/-- Witness for C10 on a concrete unreadable file: `detect_skin_tone`
returns a dictionary with all result fields `None`, while
`modify_skin_tone` propagates the error. -/
theorem c10_detect_total_modify_raises_witness :
    ((detect_skin_tone "missing.jpg" none).skin_tone = none ∧
     (detect_skin_tone "missing.jpg" none).rgb = none ∧
     (detect_skin_tone "missing.jpg" none).hsv = none) ∧
    modify_skin_tone "missing.jpg" none "Fair"
      = .error (.valueError ("Could not read image at " ++ "missing.jpg")) :=
  ⟨(c10_detect_total_modify_raises "missing.jpg" none).1 (by decide),
   (c10_detect_total_modify_raises "missing.jpg" none).2 "Fair"⟩
